import Mathlib

/-!
Verification of the fluoridation-dashboard feedback generator (`app.py`).

The development shallowly embeds the pieces of the program that the
properties below are about:

* the prompt builder inlined in `AIFeedbackGenerator.generate_feedback`
  (guideline lookup, two-decimal `%.2f` rendering, the fixed template);
* the chat-completion request body (`payload`);
* the retry loop around the HTTP POST, with the endpoint modelled as a
  function from attempt index and posted payload to a scripted response:
  an HTTP response carrying a status code and an optional parsed JSON
  body (`none` standing for a body on which `response.json()` raises),
  a connection-level `httpx.RequestError`, or an `httpx.TimeoutException`;
* the `update_charts` Dash callback, restricted to the feedback output
  (figure and table rendering are external library calls).

Python exceptions that escape `generate_feedback` are modelled by the
`Outcome.exn` result; the list of payloads POSTed is returned alongside
the outcome so that "exactly n calls were made" is expressible.
-/

set_option maxRecDepth 8000

namespace CWS

/-! ## Python `str.strip` and `%.2f` formatting -/

/-- Python `str.strip()`: drop whitespace from both ends.  (Python strips
Unicode whitespace; the ASCII subset handled by `Char.isWhitespace` covers
every string this program strips.) -/
def strip_string (s : String) : String :=
  String.mk (((s.data.dropWhile Char.isWhitespace).reverse.dropWhile Char.isWhitespace).reverse)

/-- The two fractional digits of `%.2f`: `r` in decimal, padded to width 2. -/
def pad2 (r : Nat) : String :=
  String.mk [Nat.digitChar (r / 10), Nat.digitChar (r % 10)]

/-- The value `100 * q` rounded to the nearest integer, ties to even — the rounding
`%.2f` applies to the value being formatted. -/
def roundHalfEven100 (q : ℚ) : Int :=
  let N : Int := 100 * q.num
  let D : Int := (q.den : Int)
  let f : Int := Int.fdiv N D
  let r : Int := N - f * D
  if 2 * r < D then f
  else if D < 2 * r then f + 1
  else if Int.emod f 2 = 0 then f else f + 1

/-- Python `f"{q:.2f}"` on a (rational-valued) number: sign, integer part,
a dot, then exactly two fractional digits. -/
def format2f (q : ℚ) : String :=
  let n : Int := roundHalfEven100 q
  let sign : String := if q.num < 0 then "-" else ""
  let m : Nat := n.natAbs
  sign ++ toString (m / 100) ++ "." ++ pad2 (m % 100)

/-! ## JSON values and `response.json()["choices"][0]["message"]["content"]` -/

/-- Parsed JSON values, as produced by `response.json()`. -/
inductive Json where
  | null
  | bool (b : Bool)
  | num (q : ℚ)
  | str (s : String)
  | arr (elems : List Json)
  | obj (fields : List (String × Json))

/-- Python `d[key]` on a parsed JSON value: succeeds only on an object
with the key present (any other shape raises `TypeError`/`KeyError`). -/
def Json.getKey : Json → String → Option Json
  | Json.obj fields, key => fields.lookup key
  | _, _ => none

/-- Python `v[i]` on a parsed JSON value: succeeds only on an array long
enough (any other shape raises). -/
def Json.getIdx : Json → Nat → Option Json
  | Json.arr elems, i => elems.get? i
  | _, _ => none

/-- Evaluation of `j["choices"][0]["message"]["content"]`, requiring the final value to be
a string (Python would raise `AttributeError` on `.strip()` otherwise).
`none` means the chained accesses raise an exception. -/
def extract_content (j : Json) : Option String :=
  match (j.getKey "choices").bind (fun c => (c.getIdx 0).bind (fun f =>
      (f.getKey "message").bind (fun m => m.getKey "content"))) with
  | some (Json.str s) => some s
  | _ => none

/-! ## Static tables from the top of `app.py` -/

/-- The `state_abbreviations` dict: postal abbreviation to state name. -/
def state_abbreviations : List (String × String) :=
  [("AL", "Alabama"), ("AK", "Alaska"), ("AZ", "Arizona"), ("AR", "Arkansas"), ("CA", "California"),
   ("CO", "Colorado"), ("CT", "Connecticut"), ("DE", "Delaware"), ("FL", "Florida"), ("GA", "Georgia"),
   ("HI", "Hawaii"), ("ID", "Idaho"), ("IL", "Illinois"), ("IN", "Indiana"), ("IA", "Iowa"), ("KS", "Kansas"),
   ("KY", "Kentucky"), ("LA", "Louisiana"), ("ME", "Maine"), ("MD", "Maryland"), ("MA", "Massachusetts"),
   ("MI", "Michigan"), ("MN", "Minnesota"), ("MS", "Mississippi"), ("MO", "Missouri"), ("MT", "Montana"),
   ("NE", "Nebraska"), ("NV", "Nevada"), ("NH", "New Hampshire"), ("NJ", "New Jersey"), ("NM", "New Mexico"),
   ("NY", "New York"), ("NC", "North Carolina"), ("ND", "North Dakota"), ("OH", "Ohio"), ("OK", "Oklahoma"),
   ("OR", "Oregon"), ("PA", "Pennsylvania"), ("RI", "Rhode Island"), ("SC", "South Carolina"),
   ("SD", "South Dakota"), ("TN", "Tennessee"), ("TX", "Texas"), ("UT", "Utah"), ("VT", "Vermont"),
   ("VA", "Virginia"), ("WA", "Washington"), ("WV", "West Virginia"), ("WI", "Wisconsin"), ("WY", "Wyoming"),
   ("DC", "District of Columbia")]

/-- The `state_guidelines` dict: state name to advisory URL. -/
def state_guidelines : List (String × String) :=
  [("Alabama", "https://www.alabamapublichealth.gov/oralhealth/fluoridation.html"),
   ("Alaska", "http://dhss.alaska.gov/dph/wcfh/Pages/oralhealth/fluoride.aspx"),
   ("Arizona", "https://www.azdhs.gov/prevention/womens-childrens-health/oral-health/index.php#community-water-fluoridation"),
   ("Arkansas", "https://www.healthy.arkansas.gov/programs-services/topics/community-water-fluoridation"),
   ("California", "https://www.cdph.ca.gov/Programs/CCDPHP/DCDIC/CDCB/Pages/OralHealthProgram/Fluoridation.aspx"),
   ("Colorado", "https://cdphe.colorado.gov/fluoride"),
   ("Connecticut", "https://portal.ct.gov/DPH/Health-Education-Management--Surveillance/Oral-Health/Community-Water-Fluoridation"),
   ("Delaware", "https://www.dhss.delaware.gov/dhss/dph/hsm/fluoridation.html"),
   ("Florida", "http://www.floridahealth.gov/programs-and-services/community-health/dental-health/fluoridation/index.html"),
   ("Georgia", "https://dph.georgia.gov/oral-health/fluoridation"),
   ("Hawaii", "https://health.hawaii.gov/about/contact/"),
   ("Idaho", "https://healthandwelfare.idaho.gov/"),
   ("Illinois", "http://www.dph.illinois.gov/"),
   ("Indiana", "https://www.in.gov/health/"),
   ("Iowa", "https://idph.iowa.gov/"),
   ("Kansas", "http://www.kdheks.gov/"),
   ("Kentucky", "https://chfs.ky.gov/"),
   ("Louisiana", "https://ldh.la.gov/"),
   ("Maine", "https://www.maine.gov/dhhs/"),
   ("Maryland", "https://health.maryland.gov/"),
   ("Massachusetts", "https://www.mass.gov/orgs/department-of-public-health"),
   ("Michigan", "https://www.michigan.gov/mdhhs/adult-child-serv/childrenfamilies/familyhealth/oralhealth/community-water-fluoridation"),
   ("Minnesota", "https://www.health.state.mn.us/"),
   ("Mississippi", "https://msdh.ms.gov/"),
   ("Missouri", "https://health.mo.gov/"),
   ("Montana", "https://dphhs.mt.gov/"),
   ("Nebraska", "http://dhhs.ne.gov/"),
   ("Nevada", "https://dpbh.nv.gov/"),
   ("New Hampshire", "https://www.dhhs.nh.gov/"),
   ("New Jersey", "https://www.nj.gov/health/"),
   ("New Mexico", "https://www.nmhealth.org/"),
   ("New York", "https://www.health.ny.gov/prevention/dental/fluoridation/"),
   ("North Carolina", "https://www.ncdhhs.gov/"),
   ("North Dakota", "https://www.health.nd.gov/"),
   ("Ohio", "https://odh.ohio.gov/"),
   ("Oklahoma", "https://oklahoma.gov/health.html"),
   ("Oregon", "https://www.oregon.gov/oha/"),
   ("Pennsylvania", "https://www.health.pa.gov/"),
   ("Rhode Island", "https://health.ri.gov/"),
   ("South Carolina", "https://www.scdhec.gov/"),
   ("South Dakota", "https://doh.sd.gov/"),
   ("Tennessee", "https://www.tn.gov/health.html"),
   ("Texas", "https://www.dshs.state.tx.us/dental/oralhealthfluoridation.shtm"),
   ("Utah", "https://health.utah.gov/"),
   ("Vermont", "https://www.healthvermont.gov/wellness/oral-health/fluoride"),
   ("Virginia", "https://www.vdh.virginia.gov/"),
   ("Washington", "https://www.doh.wa.gov/"),
   ("West Virginia", "https://dhhr.wv.gov/"),
   ("Wisconsin", "https://www.dhs.wisconsin.gov/oral-health/index.htm"),
   ("Wyoming", "https://health.wyo.gov/publichealth/mch/oralhealth/"),
   ("District of Columbia", "https://dchealth.dc.gov/")]

/-! ## The prompt builder inlined in `generate_feedback` -/

/-- The fallback sentence used when no state guideline URL is configured. -/
def cdc_fallback : String :=
  "For general information on fluoride levels, refer to the CDC’s WFRS (Water Fluoridation Reporting System) or " ++
  "the 'My Water Fluoride' tool available through the CDC website."

/-- The `additional_info` string as computed at the top of `generate_feedback`:
`state_guidelines.get(state_name, None)` followed by a truthiness test
(`if guideline_link:`), so an empty-string entry would also fall back. -/
def additional_info (state_name : String) : String :=
  match state_guidelines.lookup state_name with
  | some guideline_link =>
      if guideline_link = "" then cdc_fallback
      else "For specific state guidelines, refer to: " ++ guideline_link ++ "."
  | none => cdc_fallback

/-- The prompt f-string of `generate_feedback`, with `{year}` rendered by
`toString` and the fluoride values by `format2f`. -/
def build_prompt (state_name : String) (year : Int) (max_fluoride avg_fluoride : ℚ)
    (cws_name : String) : String :=
  "Provide a summary of the water fluoridation data for '" ++ cws_name ++ "' in " ++ state_name
  ++ " for the year " ++ toString year ++ "."
  ++ " This CWS had the highest monthly adjusted fluoride level, recorded at " ++ format2f max_fluoride
  ++ " mg/L, with a historical average of " ++ format2f avg_fluoride ++ " ppm."
  ++ " Please indicate if the data suggests consistency with public health guidelines or if it indicates a need for intervention. "
  ++ additional_info state_name

/-! ## The chat-completion request body -/

/-- One entry of the `messages` array of the request body. -/
structure Message where
  role : String
  content : String
deriving DecidableEq

/-- The JSON request body POSTed on every attempt. -/
structure Payload where
  model : String
  messages : List Message
  max_tokens : Nat
deriving DecidableEq

/-- Content of the system message. -/
def system_content : String := "You are an assistant for public health data summaries."

/-- The `payload` dict of `generate_feedback`. -/
def build_payload (prompt : String) : Payload :=
  Payload.mk "gpt-4" [Message.mk "system" system_content, Message.mk "user" prompt] 350

/-! ## The retry loop -/

/-- What one POST to the endpoint comes back with.  `http status body`
is a served HTTP response whose body parses to `some` JSON value, or on
which `response.json()` raises (`none`).  The other two constructors are
the connection-level failures `generate_feedback` catches. -/
inductive Response where
  | http (status : Nat) (body : Option Json)
  | requestError
  | timeout

/-- How `generate_feedback` hands control back to its caller: a returned
string, or a Python exception escaping it. -/
inductive Outcome where
  | success (s : String)
  | exn
deriving DecidableEq

/-- Result of a run of the retry loop: the outcome, and the payloads
POSTed in order (so `requests.length` is the number of endpoint calls). -/
structure RunResult where
  outcome : Outcome
  requests : List Payload

/-- The fixed string returned on HTTP 401. -/
def unauthorized_msg : String := "Error: Unauthorized access. Please check your API key."

/-- The fixed string returned when every attempt failed. -/
def exhausted_msg : String := "Feedback generation failed after multiple attempts."

/-- The `for attempt in range(self.retries)` loop.  The endpoint is a
function of the attempt index and the posted payload.  A 2xx response
(`raise_for_status` passes for exactly 200–299) returns the stripped
extracted content, or lets the extraction exception escape; a 401 returns
the fixed unauthorized string; any other status, request error or timeout
logs and consumes one attempt. -/
def attempt_loop (payload : Payload) (endpoint : Nat → Payload → Response) (i : Nat) :
    Nat → RunResult
  | 0 => RunResult.mk (Outcome.success exhausted_msg) []
  | Nat.succ n =>
    match endpoint i payload with
    | Response.http status body =>
      if 200 ≤ status ∧ status < 300 then
        match body with
        | some j =>
          match extract_content j with
          | some content => RunResult.mk (Outcome.success (strip_string content)) [payload]
          | none => RunResult.mk Outcome.exn [payload]
        | none => RunResult.mk Outcome.exn [payload]
      else if status = 401 then
        RunResult.mk (Outcome.success unauthorized_msg) [payload]
      else
        let r := attempt_loop payload endpoint (i + 1) n
        RunResult.mk r.outcome (payload :: r.requests)
    | Response.requestError =>
        let r := attempt_loop payload endpoint (i + 1) n
        RunResult.mk r.outcome (payload :: r.requests)
    | Response.timeout =>
        let r := attempt_loop payload endpoint (i + 1) n
        RunResult.mk r.outcome (payload :: r.requests)

/-- The method `AIFeedbackGenerator.generate_feedback`, for a client constructed with
`retries`; builds the prompt and payload, then runs the retry loop. -/
def generate_feedback (retries : Nat) (state_name : String) (year : Int)
    (max_fluoride avg_fluoride : ℚ) (cws_name : String)
    (endpoint : Nat → Payload → Response) : RunResult :=
  attempt_loop (build_payload (build_prompt state_name year max_fluoride avg_fluoride cws_name))
    endpoint 0 retries

/-! ## The `update_charts` callback, restricted to its feedback output -/

/-- One row of `fluoride_data` after ingestion: the columns the callback
reads.  `fluoride_avg` is the column
`Highest Adjusted CWS Monthly Fluoride Average` after `fillna(0)`. -/
structure Row where
  state : String
  year : Int
  cws_adjusted_name : String
  fluoride_avg : ℚ

/-- What the callback contributes beyond the figure and table: the
feedback string, and the payloads the feedback generator POSTed. -/
structure ChartsResult where
  feedback : String
  ai_requests : List Payload

/-- The `pandas` column `.mean()` over the listed values. -/
def column_mean (xs : List ℚ) : ℚ := xs.sum / (xs.length : ℚ)

/-- The `pandas` column `.max()` over the listed values (callers guard against
the empty column). -/
def column_max : List ℚ → ℚ
  | [] => 0
  | x :: xs => xs.foldl max x

/-- The `update_charts` callback.  Dropdown values are `Option`s; Python
truthiness makes `0` and `""` behave like no selection.  A missing
abbreviation (`state_abbreviations[selected_state]`) and an exception from
`generate_feedback` surface as `Except.error`. -/
def update_charts (data : List Row) (retries : Nat) (endpoint : Nat → Payload → Response)
    (selected_year : Option Int) (selected_state : Option String) :
    Except String ChartsResult :=
  match selected_year, selected_state with
  | some y, some st =>
    if y = 0 ∨ st = "" then
      Except.ok (ChartsResult.mk "Select a year and state to view data." [])
    else
      match state_abbreviations.lookup st with
      | none => Except.error "KeyError: state_abbreviations"
      | some state_name =>
        let state_data_all_years := data.filter (fun r => r.state == st)
        let state_data_for_year := state_data_all_years.filter (fun r => r.year == y)
        match state_data_for_year with
        | [] =>
          Except.ok (ChartsResult.mk
            ("No data for " ++ state_name ++ " in " ++ toString y ++ ".") [])
        | row0 :: _ =>
          let avg_fluoride := column_mean (state_data_all_years.map (fun r => r.fluoride_avg))
          let max_fluoride := column_max (state_data_for_year.map (fun r => r.fluoride_avg))
          let r := generate_feedback retries state_name y max_fluoride avg_fluoride
            row0.cws_adjusted_name endpoint
          match r.outcome with
          | Outcome.success s => Except.ok (ChartsResult.mk s r.requests)
          | Outcome.exn => Except.error "uncaught exception from generate_feedback"
  | _, _ => Except.ok (ChartsResult.mk "Select a year and state to view data." [])

/-! ## Substring containment -/

/-- Holds when `pat` occurs contiguously inside `s`. -/
def strContains (s pat : String) : Prop :=
  pat.data <:+: s.data

instance (s pat : String) : Decidable (strContains s pat) :=
  inferInstanceAs (Decidable (pat.data <:+: s.data))

theorem strContains_intro (a pat b s : String) (h : a ++ pat ++ b = s) :
    strContains s pat := by
  refine ⟨a.data, b.data, ?_⟩
  rw [← h]
  simp [String.data_append]

theorem strContains_of_append_right (s t pat : String) (h : strContains t pat) :
    strContains (s ++ t) pat := by
  obtain ⟨u, v, huv⟩ := h
  exact ⟨s.data ++ u, v, by rw [String.data_append, ← huv]; simp⟩

theorem strContains_self (pat : String) : strContains pat pat :=
  ⟨[], [], by simp⟩

theorem strContains_of_append_end (s pat : String) : strContains (s ++ pat) pat :=
  ⟨s.data, [], by simp [String.data_append]⟩

theorem strContains_of_append_left (s t pat : String) (h : strContains s pat) :
    strContains (s ++ t) pat := by
  obtain ⟨u, v, huv⟩ := h
  exact ⟨u, v ++ t.data, by rw [String.data_append, ← huv]; simp⟩

/-! ## Helper lemmas on the scripted retry loop -/

theorem lookup_mem_of_eq_some {β : Type} (l : List (String × β)) (a : String) (b : β)
    (h : l.lookup a = some b) : b ∈ l.map (fun p => p.2) := by
  induction l with
  | nil => simp [List.lookup] at h
  | cons p t ih =>
    obtain ⟨k, v⟩ := p
    rw [List.lookup] at h
    cases hak : a == k with
    | true => rw [hak] at h; simp at h; simp [h]
    | false => rw [hak] at h; simp at h ⊢; exact Or.inr (by simpa using ih h)

theorem state_guidelines_values_nonempty :
    ∀ u ∈ state_guidelines.map (fun p => p.2), u ≠ "" := by decide

/-- Every payload the loop POSTs is the payload it was given. -/
theorem attempt_loop_requests_eq (payload : Payload) (endpoint : Nat → Payload → Response) :
    ∀ (n i : Nat), ∀ p ∈ (attempt_loop payload endpoint i n).requests, p = payload := by
  intro n
  induction n with
  | zero => intro i p hp; simp [attempt_loop] at hp
  | succ n ih =>
    intro i p hp
    cases hep : endpoint i payload with
    | http status body =>
      by_cases h2 : 200 ≤ status ∧ status < 300
      · cases body with
        | some j =>
          cases hx : extract_content j with
          | some content =>
            simp only [attempt_loop, hep, if_pos h2, hx] at hp
            simpa using hp
          | none =>
            simp only [attempt_loop, hep, if_pos h2, hx] at hp
            simpa using hp
        | none =>
          simp only [attempt_loop, hep, if_pos h2] at hp
          simpa using hp
      · by_cases h4 : status = 401
        · simp only [attempt_loop, hep, if_neg h2, if_pos h4] at hp
          simpa using hp
        · simp only [attempt_loop, hep, if_neg h2, if_neg h4] at hp
          rcases List.mem_cons.mp hp with rfl | hmem
          · rfl
          · exact ih (i + 1) p hmem
    | requestError =>
      simp only [attempt_loop, hep] at hp
      rcases List.mem_cons.mp hp with rfl | hmem
      · rfl
      · exact ih (i + 1) p hmem
    | timeout =>
      simp only [attempt_loop, hep] at hp
      rcases List.mem_cons.mp hp with rfl | hmem
      · rfl
      · exact ih (i + 1) p hmem

/-- When every attempt comes back with a non-2xx, non-401 status, the loop
burns all `n` attempts and returns the exhaustion string. -/
theorem attempt_loop_exhaust (payload : Payload) (endpoint : Nat → Payload → Response)
    (h : ∀ i, ∃ st b, endpoint i payload = Response.http st b ∧
      ¬(200 ≤ st ∧ st < 300) ∧ st ≠ 401) :
    ∀ (n i : Nat), attempt_loop payload endpoint i n
      = RunResult.mk (Outcome.success exhausted_msg) (List.replicate n payload) := by
  intro n
  induction n with
  | zero => intro i; rfl
  | succ n ih =>
    intro i
    obtain ⟨st, b, hep, hn2, hn4⟩ := h i
    simp only [attempt_loop, hep, if_neg hn2, if_neg hn4, ih (i + 1)]
    rfl

/-- A response is well formed when, if it is a 2xx HTTP response, its body
parses and carries `choices[0].message.content` as a string. -/
def good_response : Response → Prop
  | Response.http status body =>
      (200 ≤ status ∧ status < 300) → ∃ j s, body = some j ∧ extract_content j = some s
  | Response.requestError => True
  | Response.timeout => True

/-- Against well-formed responses the loop always returns a string: the
unauthorized message, the exhaustion message, or a stripped completion
extracted from some response. -/
theorem attempt_loop_no_exn (payload : Payload) (endpoint : Nat → Payload → Response)
    (h : ∀ i, good_response (endpoint i payload)) :
    ∀ (n i : Nat), ∃ s, (attempt_loop payload endpoint i n).outcome = Outcome.success s ∧
      (s = unauthorized_msg ∨ s = exhausted_msg ∨
        ∃ k st j c, endpoint k payload = Response.http st (some j) ∧
          extract_content j = some c ∧ s = strip_string c) := by
  intro n
  induction n with
  | zero => intro i; exact ⟨exhausted_msg, rfl, Or.inr (Or.inl rfl)⟩
  | succ n ih =>
    intro i
    cases hep : endpoint i payload with
    | http status body =>
      by_cases h2 : 200 ≤ status ∧ status < 300
      · have hg := h i
        rw [hep] at hg
        obtain ⟨j, s, hb, hx⟩ := hg h2
        subst hb
        refine ⟨strip_string s, ?_, Or.inr (Or.inr ⟨i, status, j, s, hep, hx, rfl⟩)⟩
        simp only [attempt_loop, hep, if_pos h2, hx]
      · by_cases h4 : status = 401
        · refine ⟨unauthorized_msg, ?_, Or.inl rfl⟩
          simp only [attempt_loop, hep, if_neg h2, if_pos h4]
        · obtain ⟨s, hs, hd⟩ := ih (i + 1)
          exact ⟨s, by simp only [attempt_loop, hep, if_neg h2, if_neg h4]; exact hs, hd⟩
    | requestError =>
      obtain ⟨s, hs, hd⟩ := ih (i + 1)
      exact ⟨s, by simp only [attempt_loop, hep]; exact hs, hd⟩
    | timeout =>
      obtain ⟨s, hs, hd⟩ := ih (i + 1)
      exact ⟨s, by simp only [attempt_loop, hep]; exact hs, hd⟩

/-- The parsed body `{"choices":[{"message":{"content":" Hello. "}}]}`. -/
def hello_json : Json :=
  Json.obj [("choices", Json.arr [Json.obj [("message",
    Json.obj [("content", Json.str " Hello. ")])]])]

/-! ## Claim theorems -/

/-- C1 (amended): whenever every 2xx response the endpoint serves has a
body that parses and carries `choices[0].message.content` as a string,
`generate_feedback` never propagates an exception and returns a string
that is either a stripped completion extracted from an endpoint response
or one of the two fixed failure messages.  (The unamended claim, which
also allows malformed 2xx bodies, is refuted by
`generate_feedback_exn_on_malformed_200`.) -/
theorem generate_feedback_no_exn_of_wellformed (retries : Nat) (state_name : String)
    (year : Int) (max_fluoride avg_fluoride : ℚ) (cws_name : String)
    (endpoint : Nat → Payload → Response)
    (h : ∀ i, good_response (endpoint i
      (build_payload (build_prompt state_name year max_fluoride avg_fluoride cws_name)))) :
    ∃ s, (generate_feedback retries state_name year max_fluoride avg_fluoride cws_name
        endpoint).outcome = Outcome.success s ∧
      (s = unauthorized_msg ∨ s = exhausted_msg ∨
        ∃ k st j c, endpoint k
            (build_payload (build_prompt state_name year max_fluoride avg_fluoride cws_name))
            = Response.http st (some j) ∧
          extract_content j = some c ∧ s = strip_string c) :=
  attempt_loop_no_exn _ endpoint h retries 0

/-- Witness for C1 (amended) at a concrete endpoint that always answers 401. -/
theorem generate_feedback_no_exn_of_wellformed_witness :
    ∃ s, (generate_feedback 1 "Ohio" 2021 (mkRat 71 100) (mkRat 68 100) "Columbus Water"
        (fun _ _ => Response.http 401 none)).outcome = Outcome.success s ∧
      (s = unauthorized_msg ∨ s = exhausted_msg ∨
        ∃ k st j c, (fun (_ : Nat) (_ : Payload) => Response.http 401 none) k
            (build_payload (build_prompt "Ohio" 2021 (mkRat 71 100) (mkRat 68 100)
              "Columbus Water"))
            = Response.http st (some j) ∧
          extract_content j = some c ∧ s = strip_string c) :=
  generate_feedback_no_exn_of_wellformed 1 "Ohio" 2021 (mkRat 71 100) (mkRat 68 100)
    "Columbus Water" (fun _ _ => Response.http 401 none)
    (fun _ => fun h2 => absurd h2 (by decide))

/-- C1 counterexample: on a 200 response whose parsed body lacks
`choices`, the chained accesses raise and the exception escapes
`generate_feedback` — it does not return a string. -/
theorem generate_feedback_exn_on_malformed_200 :
    (generate_feedback 3 "Ohio" 2021 (mkRat 71 100) (mkRat 68 100) "Columbus Water"
      (fun _ _ => Response.http 200 (some (Json.obj [])))).outcome = Outcome.exn := rfl

/-- C2: if the endpoint answers 401 to the first attempt, the generator
returns the fixed unauthorized string after exactly one call, whatever
`retries ≥ 1` is configured and whatever the endpoint would do later. -/
theorem generate_feedback_unauthorized_first_attempt (retries : Nat) (h1 : 1 ≤ retries)
    (state_name : String) (year : Int) (max_fluoride avg_fluoride : ℚ) (cws_name : String)
    (endpoint : Nat → Payload → Response) (body : Option Json)
    (h2 : endpoint 0
        (build_payload (build_prompt state_name year max_fluoride avg_fluoride cws_name))
        = Response.http 401 body) :
    (generate_feedback retries state_name year max_fluoride avg_fluoride cws_name
        endpoint).outcome = Outcome.success unauthorized_msg ∧
    (generate_feedback retries state_name year max_fluoride avg_fluoride cws_name
        endpoint).requests.length = 1 := by
  obtain ⟨n, rfl⟩ : ∃ n, retries = n + 1 := ⟨retries - 1, by omega⟩
  unfold generate_feedback
  simp only [attempt_loop, h2, if_neg (by decide : ¬((200:Nat) ≤ 401 ∧ (401:Nat) < 300)),
    if_pos rfl]
  exact ⟨rfl, rfl⟩

/-- Witness for C2: three configured retries, an endpoint that always
answers 401. -/
theorem generate_feedback_unauthorized_first_attempt_witness :
    (generate_feedback 3 "Ohio" 2021 (mkRat 71 100) (mkRat 68 100) "Columbus Water"
        (fun _ _ => Response.http 401 none)).outcome = Outcome.success unauthorized_msg ∧
    (generate_feedback 3 "Ohio" 2021 (mkRat 71 100) (mkRat 68 100) "Columbus Water"
        (fun _ _ => Response.http 401 none)).requests.length = 1 :=
  generate_feedback_unauthorized_first_attempt 3 (by decide) "Ohio" 2021 (mkRat 71 100)
    (mkRat 68 100) "Columbus Water" (fun _ _ => Response.http 401 none) none rfl

/-- C3: if every attempt draws a non-2xx, non-401 status, the generator
makes exactly `retries` POSTs and returns the fixed exhaustion string. -/
theorem generate_feedback_exhausts_retries (retries : Nat) (state_name : String)
    (year : Int) (max_fluoride avg_fluoride : ℚ) (cws_name : String)
    (endpoint : Nat → Payload → Response)
    (h : ∀ i, ∃ st b, endpoint i
        (build_payload (build_prompt state_name year max_fluoride avg_fluoride cws_name))
        = Response.http st b ∧ ¬(200 ≤ st ∧ st < 300) ∧ st ≠ 401) :
    (generate_feedback retries state_name year max_fluoride avg_fluoride cws_name
        endpoint).outcome = Outcome.success exhausted_msg ∧
    (generate_feedback retries state_name year max_fluoride avg_fluoride cws_name
        endpoint).requests.length = retries := by
  unfold generate_feedback
  rw [attempt_loop_exhaust _ endpoint h retries 0]
  exact ⟨rfl, by simp⟩

/-- Witness for C3: an endpoint that always answers 500. -/
theorem generate_feedback_exhausts_retries_witness :
    (generate_feedback 3 "Ohio" 2021 (mkRat 71 100) (mkRat 68 100) "Columbus Water"
        (fun _ _ => Response.http 500 none)).outcome = Outcome.success exhausted_msg ∧
    (generate_feedback 3 "Ohio" 2021 (mkRat 71 100) (mkRat 68 100) "Columbus Water"
        (fun _ _ => Response.http 500 none)).requests.length = 3 :=
  generate_feedback_exhausts_retries 3 "Ohio" 2021 (mkRat 71 100) (mkRat 68 100)
    "Columbus Water" (fun _ _ => Response.http 500 none)
    (fun _ => ⟨500, none, rfl, by decide, by decide⟩)

/-- C6: a timeout on attempt 1 followed by a 200 response carrying
`{"choices":[{"message":{"content":" Hello. "}}]}` on attempt 2 makes the
generator return `"Hello."` after exactly 2 calls, for any `retries ≥ 2`. -/
theorem generate_feedback_timeout_then_success (retries : Nat) (h1 : 2 ≤ retries)
    (state_name : String) (year : Int) (max_fluoride avg_fluoride : ℚ) (cws_name : String)
    (endpoint : Nat → Payload → Response)
    (h2 : endpoint 0
        (build_payload (build_prompt state_name year max_fluoride avg_fluoride cws_name))
        = Response.timeout)
    (h3 : endpoint 1
        (build_payload (build_prompt state_name year max_fluoride avg_fluoride cws_name))
        = Response.http 200 (some hello_json)) :
    (generate_feedback retries state_name year max_fluoride avg_fluoride cws_name
        endpoint).outcome = Outcome.success "Hello." ∧
    (generate_feedback retries state_name year max_fluoride avg_fluoride cws_name
        endpoint).requests.length = 2 := by
  obtain ⟨n, rfl⟩ : ∃ n, retries = n + 2 := ⟨retries - 2, by omega⟩
  unfold generate_feedback
  simp only [attempt_loop, h2, h3,
    if_pos (by decide : (200:Nat) ≤ 200 ∧ (200:Nat) < 300),
    show extract_content hello_json = some " Hello. " from rfl]
  exact ⟨by decide, rfl⟩

/-- Witness for C6 at `retries = 2` and a concrete scripted endpoint. -/
theorem generate_feedback_timeout_then_success_witness :
    (generate_feedback 2 "Ohio" 2021 (mkRat 71 100) (mkRat 68 100) "Columbus Water"
        (fun i _ => if i = 0 then Response.timeout
          else Response.http 200 (some hello_json))).outcome = Outcome.success "Hello." ∧
    (generate_feedback 2 "Ohio" 2021 (mkRat 71 100) (mkRat 68 100) "Columbus Water"
        (fun i _ => if i = 0 then Response.timeout
          else Response.http 200 (some hello_json))).requests.length = 2 :=
  generate_feedback_timeout_then_success 2 (by decide) "Ohio" 2021 (mkRat 71 100)
    (mkRat 68 100) "Columbus Water"
    (fun i _ => if i = 0 then Response.timeout else Response.http 200 (some hello_json))
    rfl rfl

/-- C4 counterexample: Ohio does have a `state_guidelines` entry, so the
prompt for the cited request does not contain the general CDC fallback
sentence — the claimed conjunction is false. -/
theorem build_prompt_ohio_fallback_refuted :
    ¬ (strContains (build_prompt "Ohio" 2021 (mkRat 71 100) (mkRat 68 100) "Columbus Water")
          cdc_fallback ∧
        strContains (build_prompt "Ohio" 2021 (mkRat 71 100) (mkRat 68 100) "Columbus Water")
          "0.71" ∧
        strContains (build_prompt "Ohio" 2021 (mkRat 71 100) (mkRat 68 100) "Columbus Water")
          "0.68") :=
  fun h => absurd h.1 (by decide)

/-- C4 (amended): for that request the prompt contains the Ohio-specific
guideline sentence (Ohio has an entry in the directory), and the numbers
`0.71` and `0.68` verbatim. -/
theorem build_prompt_ohio_amended :
    strContains (build_prompt "Ohio" 2021 (mkRat 71 100) (mkRat 68 100) "Columbus Water")
      "For specific state guidelines, refer to: https://odh.ohio.gov/." ∧
    strContains (build_prompt "Ohio" 2021 (mkRat 71 100) (mkRat 68 100) "Columbus Water")
      "0.71" ∧
    strContains (build_prompt "Ohio" 2021 (mkRat 71 100) (mkRat 68 100) "Columbus Water")
      "0.68" :=
  ⟨by decide, by decide, by decide⟩

/-- C5: a request whose state has no guideline-directory entry gets the
fixed CDC fallback sentence in its prompt, verbatim; a request whose state
has an entry gets the URL of that entry. -/
theorem build_prompt_guideline_lookup (state_name : String) (year : Int)
    (max_fluoride avg_fluoride : ℚ) (cws_name : String) :
    (state_guidelines.lookup state_name = none →
      strContains (build_prompt state_name year max_fluoride avg_fluoride cws_name)
        cdc_fallback) ∧
    (∀ url, state_guidelines.lookup state_name = some url →
      strContains (build_prompt state_name year max_fluoride avg_fluoride cws_name) url) := by
  constructor
  · intro hnone
    unfold build_prompt additional_info
    rw [hnone]
    exact strContains_of_append_right _ _ _ (strContains_self _)
  · intro url hsome
    have hne : url ≠ "" :=
      state_guidelines_values_nonempty url (lookup_mem_of_eq_some _ _ _ hsome)
    unfold build_prompt additional_info
    simp only [hsome, if_neg hne]
    exact strContains_of_append_right _ _ _
      (strContains_intro "For specific state guidelines, refer to: " url "." _ rfl)

/-- Witness for C5: Ohio (an entry) and a state absent from the directory. -/
theorem build_prompt_guideline_lookup_witness :
    strContains (build_prompt "Ohio" 2021 (mkRat 71 100) (mkRat 68 100) "Columbus Water")
      "https://odh.ohio.gov/" ∧
    strContains (build_prompt "Atlantis" 2021 (mkRat 71 100) (mkRat 68 100) "Columbus Water")
      cdc_fallback :=
  ⟨(build_prompt_guideline_lookup "Ohio" 2021 (mkRat 71 100) (mkRat 68 100)
      "Columbus Water").2 "https://odh.ohio.gov/" rfl,
   (build_prompt_guideline_lookup "Atlantis" 2021 (mkRat 71 100) (mkRat 68 100)
      "Columbus Water").1 rfl⟩

/-- C7: the prompt renders both fluoride values through `format2f`, and
`format2f` always produces an integer part, a dot, then exactly two
fractional digits, whatever the precision of the input (in particular `1`
renders as `"1.00"`). -/
theorem build_prompt_two_decimal_rendering (state_name : String) (year : Int)
    (max_fluoride avg_fluoride : ℚ) (cws_name : String) :
    strContains (build_prompt state_name year max_fluoride avg_fluoride cws_name)
      (format2f max_fluoride) ∧
    strContains (build_prompt state_name year max_fluoride avg_fluoride cws_name)
      (format2f avg_fluoride) ∧
    (∀ q : ℚ, ∃ intPart : String, ∃ r : Nat, r < 100 ∧
      format2f q = intPart ++ "." ++ pad2 r ∧ (pad2 r).length = 2) ∧
    format2f (mkRat 1 1) = "1.00" := by
  refine ⟨?_, ?_, ?_, rfl⟩
  · unfold build_prompt
    exact strContains_of_append_left _ _ _ (strContains_of_append_left _ _ _
      (strContains_of_append_left _ _ _ (strContains_of_append_left _ _ _
        (strContains_of_append_left _ _ _ (strContains_of_append_end _ _)))))
  · unfold build_prompt
    exact strContains_of_append_left _ _ _ (strContains_of_append_left _ _ _
      (strContains_of_append_left _ _ _ (strContains_of_append_end _ _)))
  · intro q
    exact ⟨(if q.num < 0 then "-" else "") ++ toString ((roundHalfEven100 q).natAbs / 100),
      (roundHalfEven100 q).natAbs % 100, Nat.mod_lt _ (by decide), rfl, rfl⟩

/-- C8: the request body has the fixed model, exactly the system persona
message followed by the user message carrying the prompt, and a 350-token
cap; and every payload POSTed during a run is that body. -/
theorem payload_shape_and_sent_each_attempt (retries : Nat) (state_name : String)
    (year : Int) (max_fluoride avg_fluoride : ℚ) (cws_name : String)
    (endpoint : Nat → Payload → Response) :
    (build_payload (build_prompt state_name year max_fluoride avg_fluoride cws_name)).model
      = "gpt-4" ∧
    (build_payload (build_prompt state_name year max_fluoride avg_fluoride cws_name)).max_tokens
      = 350 ∧
    (build_payload (build_prompt state_name year max_fluoride avg_fluoride cws_name)).messages
      = [Message.mk "system" system_content,
         Message.mk "user" (build_prompt state_name year max_fluoride avg_fluoride cws_name)] ∧
    (build_payload (build_prompt state_name year max_fluoride avg_fluoride cws_name)).messages.length
      = 2 ∧
    strContains system_content "assistant for public health data summaries" ∧
    (generate_feedback retries state_name year max_fluoride avg_fluoride cws_name
        endpoint).requests
      = List.replicate
          (generate_feedback retries state_name year max_fluoride avg_fluoride cws_name
            endpoint).requests.length
          (build_payload (build_prompt state_name year max_fluoride avg_fluoride cws_name)) := by
  refine ⟨rfl, rfl, rfl, rfl, by decide, ?_⟩
  rw [List.eq_replicate_iff]
  exact ⟨rfl, attempt_loop_requests_eq _ endpoint retries 0⟩

/-- C9: with `retries = 0` the loop body never runs: no POST is issued and
the fixed exhaustion string is returned. -/
theorem generate_feedback_zero_retries (state_name : String) (year : Int)
    (max_fluoride avg_fluoride : ℚ) (cws_name : String)
    (endpoint : Nat → Payload → Response) :
    generate_feedback 0 state_name year max_fluoride avg_fluoride cws_name endpoint
      = RunResult.mk (Outcome.success exhausted_msg) [] := rfl

/-- C10: when both dropdowns are set (truthy), the state abbreviation is
known, and no dataset row matches the state and year, the callback returns
the fixed no-data message and the feedback generator is never invoked —
no payload is POSTed. -/
theorem update_charts_no_data (data : List Row) (retries : Nat)
    (endpoint : Nat → Payload → Response) (y : Int) (st state_name : String)
    (hy : y ≠ 0) (hst : st ≠ "")
    (hmap : state_abbreviations.lookup st = some state_name)
    (hempty : (data.filter (fun r => r.state == st)).filter (fun r => r.year == y) = []) :
    update_charts data retries endpoint (some y) (some st) =
      Except.ok (ChartsResult.mk ("No data for " ++ state_name ++ " in " ++ toString y ++ ".")
        []) := by
  have h0 : ¬(y = 0 ∨ st = "") := not_or.mpr ⟨hy, hst⟩
  simp only [update_charts, if_neg h0, hmap, hempty]

/-- Witness for C10: a one-row dataset for Ohio 2020, queried for 2021. -/
theorem update_charts_no_data_witness :
    update_charts [Row.mk "OH" 2020 "Columbus Water" (mkRat 1 1)] 3
        (fun _ _ => Response.http 500 none) (some 2021) (some "OH") =
      Except.ok (ChartsResult.mk ("No data for " ++ "Ohio" ++ " in " ++ toString (2021 : Int)
        ++ ".") []) :=
  update_charts_no_data [Row.mk "OH" 2020 "Columbus Water" (mkRat 1 1)] 3
    (fun _ _ => Response.http 500 none) 2021 "OH" "Ohio" (by decide) (by decide) rfl rfl

end CWS
